import Mathlib

/-!
Shallow embedding of the offscreen repository: the Sony Bravia REST
client response decoding (sony.go), the reconciler `ssChange` and the
startup input resolution (cmds.go), and the X11 screen watcher with
EDID-based presence detection (screen.go).
-/

namespace Offscreen

/-! ## Protocol client calls and an abstract TV client

The reconciler talks to the TV through four operations of `RESTClient`
(sony.go). Each operation is modelled as a state transformer on an
abstract client state `σ` that may also fail with an error of type `ε`;
this covers any sequence of TV responses, since a response may depend on
the state accumulated by earlier calls. -/

/-- The protocol-client operations `ssChange` can perform, with the
argument of each mutating operation recorded. -/
inductive Call where
  | powerStatus : Call
  | setPowerStatus (status : Bool) : Call
  | selectedInput : Call
  | setInput (uri : String) : Call
deriving DecidableEq, Repr

/-- A call is mutating when it changes TV state: `SetPowerStatus` or
`SetInput` (as opposed to the read-only `PowerStatus` and
`SelectedInput`). -/
def Call.isMutating : Call → Bool
  | .setPowerStatus _ => true
  | .setInput _ => true
  | _ => false

/-- Abstract TV client: the four `RESTClient` operations used by
`ssChange`, as state transformers over `σ` returning either a value or
an error `ε`. -/
structure TVClient (σ ε : Type) where
  powerStatus : σ → Except ε String × σ
  setPowerStatus : Bool → σ → Except ε Unit × σ
  selectedInput : σ → Except ε String × σ
  setInput : String → σ → Except ε Unit × σ

/-! ## The reconciler: ssChange (cmds.go lines 116-164)

`ssChange` is split at the point the Go code fetches the selected input
(cmds.go line 139): `ssChangeTail` embeds lines 139-163, `ssChange`
embeds the whole function. Both return the result, the final client
state and the trace of protocol calls made, in order. -/

/-- Lines 139-163 of cmds.go: fetch the selected input, then possibly
select our input (after a power-on) or power off (screen saver on and
our input selected). `tr` is the trace of calls already made. -/
def ssChangeTail {σ ε : Type} (c : TVClient σ ε) (ourInput : String) (ssOn : Bool)
    (status : String) (s : σ) (tr : List Call) : Except ε Unit × σ × List Call :=
  match c.selectedInput s with
  | (.error e, s1) => (.error e, s1, tr ++ [Call.selectedInput])
  | (.ok input, s1) =>
    let tr1 := tr ++ [Call.selectedInput]
    if status = "standby" ∧ ssOn = false ∧ input ≠ ourInput then
      match c.setInput ourInput s1 with
      | (.error e, s2) => (.error e, s2, tr1 ++ [Call.setInput ourInput])
      | (.ok _, s2) => (.ok (), s2, tr1 ++ [Call.setInput ourInput])
    else if status = "active" ∧ ssOn = true ∧ input = ourInput then
      match c.setPowerStatus false s1 with
      | (.error e, s2) => (.error e, s2, tr1 ++ [Call.setPowerStatus false])
      | (.ok _, s2) => (.ok (), s2, tr1 ++ [Call.setPowerStatus false])
    else
      (.ok (), s1, tr1)

/-- cmds.go lines 116-164: handle a screen saver change event, turning
the TV on or off and possibly selecting our input on the TV. -/
def ssChange {σ ε : Type} (c : TVClient σ ε) (ourInput : String) (ssOn : Bool)
    (s : σ) : Except ε Unit × σ × List Call :=
  match c.powerStatus s with
  | (.error e, s1) => (.error e, s1, [Call.powerStatus])
  | (.ok status, s1) =>
    if status = "standby" ∧ ssOn = true then
      (.ok (), s1, [Call.powerStatus])
    else if status = "standby" ∧ ssOn = false then
      match c.setPowerStatus true s1 with
      | (.error e, s2) => (.error e, s2, [Call.powerStatus, Call.setPowerStatus true])
      | (.ok _, s2) =>
        ssChangeTail c ourInput ssOn status s2 [Call.powerStatus, Call.setPowerStatus true]
    else
      ssChangeTail c ourInput ssOn status s1 [Call.powerStatus]

/-! ## A deterministic TV model

For the idempotence claim the abstract client is instantiated with a
TV whose state is its power status and selected input. `SelectedInput`
fails while the TV is in standby (the Bravia REST API returns an error
then, per the comment at cmds.go line 137 and the table in the spec). -/

/-- Power status and currently selected input of the TV. -/
structure TVState where
  power : String
  input : String
deriving DecidableEq, Repr

/-- The deterministic TV: getters read the state, setters update it,
and `SelectedInput` errors while the TV is not active. -/
def tvClient : TVClient TVState String where
  powerStatus s := (.ok s.power, s)
  setPowerStatus b s := (.ok (), ⟨if b then "active" else "standby", s.input⟩)
  selectedInput s :=
    if s.power = "active" then (.ok s.input, s)
    else (.error "Display Is Turned Off", s)
  setInput u s := (.ok (), ⟨s.power, u⟩)

/-! ## EDID presence detection (screen.go lines 183-248)

An X11 output is modelled by the shape of its EDID property as seen by
`RangeEDID`: too large (`BytesAfter != 0`), absent (zero-length data),
malformed (non-empty data `edid.NewEdid` rejects), or decoding to a
(manufacturerID, productCode) pair. -/

/-- The EDID property of one xrandr output, as `RangeEDID` observes it. -/
inductive EDIDProp where
  | tooLarge : EDIDProp
  | absent : EDIDProp
  | malformed : EDIDProp
  | payload (manufacturerId : String) (productCode : Nat) : EDIDProp
deriving DecidableEq, Repr

/-- An output is well formed when its EDID property is absent or decodes
cleanly (neither malformed nor oversized). -/
def EDIDProp.wellFormed : EDIDProp → Bool
  | .malformed => false
  | .tooLarge => false
  | _ => true

/-- An output matches the configured pair when its EDID payload decodes
to exactly that (manufacturerID, productCode) pair. -/
def EDIDProp.matches (manufacturerID : String) (productCode : Nat) : EDIDProp → Bool
  | .payload m p => m == manufacturerID && p == productCode
  | _ => false

/-- screen.go lines 209-248: call `fn` for each output that has an EDID
property, threading a state `st` (the Go closure state). An oversized
property or a parse failure is a hard error; an output with no property
is skipped; `fn` returning `cont = false` or an error stops the
iteration. -/
def RangeEDID {σ : Type} (outputs : List EDIDProp)
    (fn : σ → String → Nat → Except String (Bool × σ)) (st : σ) : Except String σ :=
  match outputs with
  | [] => .ok st
  | o :: rest =>
    match o with
    | .tooLarge => .error "EDID data too large"
    | .absent => RangeEDID rest fn st
    | .malformed => .error "could not parse EDID data"
    | .payload m p =>
      match fn st m p with
      | .error e => .error e
      | .ok (cont, st1) => if cont then RangeEDID rest fn st1 else .ok st1

/-- screen.go lines 183-193: the `RangeEDIDFunc` closure of
`queryPresence`, with the captured `present` flag as explicit state:
on a match set it and stop ranging, otherwise keep ranging. -/
def presenceFn (manufacturerID : String) (productCode : Nat)
    (present : Bool) (m : String) (p : Nat) : Except String (Bool × Bool) :=
  if m == manufacturerID && p == productCode then .ok (false, true)
  else .ok (true, present)

/-- screen.go lines 183-193: query the presence of the configured
monitor by ranging over the outputs. -/
def queryPresence (manufacturerID : String) (productCode : Nat)
    (outputs : List EDIDProp) : Except String Bool :=
  RangeEDID outputs (presenceFn manufacturerID productCode) false

/-! ## The watch loop (screen.go lines 121-180)

One iteration of the `Screen.Watch` event loop is a step function from
the cached flags and the incoming event to the new cached flags plus
the handler invocation it triggers, if any. A randr notification
carries the output list the presence rescan will see, since the Go code
re-queries the server on every such event. -/

/-- The X11 screen saver states of the SCREENSAVER extension
(Off, On, Cycle, Disabled). -/
inductive SaverState where
  | off : SaverState
  | on : SaverState
  | cycle : SaverState
  | disabled : SaverState
deriving DecidableEq, Repr

/-- screen.go line 146: a screen saver notification is decoded as on
when its state is On or Cycle. -/
def notifyIsOn (k : SaverState) : Bool :=
  k == SaverState.on || k == SaverState.cycle

/-- screen.go lines 174-180: the initial screen saver value stored by
`NewScreen` is on exactly when `QueryInfo` reports state On. -/
def queryScreenSaver (k : SaverState) : Bool :=
  k == SaverState.on

/-- The two cached flags of the `Screen` struct read and written by the
watch loop. -/
structure ScreenState where
  ssOn : Bool
  present : Bool
deriving DecidableEq, Repr

/-- An event delivered to the watch loop: a screen saver notification
with its state field, or a randr (topology change) notification, which
carries the outputs the presence rescan will observe. -/
inductive XEvent where
  | saverNotify (state : SaverState) : XEvent
  | randrNotify (outputs : List EDIDProp) : XEvent
deriving Repr

/-- screen.go lines 144-169: one iteration of the `Screen.Watch` event
dispatch. Returns the updated cached flags and `some v` when the
handler is invoked with value `v`, or an error when the presence rescan
fails. -/
def watchStep (manufacturerID : String) (productCode : Nat)
    (st : ScreenState) : XEvent → Except String (ScreenState × Option Bool)
  | .saverNotify k =>
    let isOn := notifyIsOn k
    let wasOn := st.ssOn
    let st1 : ScreenState := ⟨isOn, st.present⟩
    if isOn ≠ wasOn ∧ st1.present = true then .ok (st1, some isOn)
    else .ok (st1, none)
  | .randrNotify outputs =>
    match queryPresence manufacturerID productCode outputs with
    | .error e => .error ("could not query TV presence: " ++ e)
    | .ok present =>
      let wasPresent := st.present
      let st1 : ScreenState := ⟨st.ssOn, present⟩
      if present = true ∧ wasPresent = false then .ok (st1, some st1.ssOn)
      else .ok (st1, none)

/-! ## Response decoding (sony.go lines 67-133 and 232-316)

A JSON value in the `error` array is a number, a string or something
else (Go decodes JSON numbers into float64; the protocol codes are
integers, modelled as `Int`). The response body, after `json.Unmarshal`
into the anonymous struct of `decodeResp`, has an optional `result`
array and an optional `error` array (`none` models a nil Go slice); a
body that is not valid JSON is `unparsable`. -/

/-- A decoded JSON value, as the elements of the `error` array appear
after unmarshalling into `[]any`. -/
inductive JVal where
  | num (n : Int) : JVal
  | str (s : String) : JVal
  | other : JVal
deriving DecidableEq, Repr

/-- The body of a TV response after `json.Unmarshal` in `decodeResp`:
the `result` and `error` fields, each possibly nil. -/
structure BraviaResponse (T : Type) where
  result : Option (List T)
  error : Option (List JVal)

/-- A raw response body: either not valid JSON, or the parsed
`BraviaResponse`. -/
inductive RawBody (T : Type) where
  | unparsable : RawBody T
  | parsed (b : BraviaResponse T) : RawBody T

/-- The error taxonomy of decoding: a protocol (Sony) error carrying
code and message, or an invalid-response error carrying a reason
(sony.go `SonyError` and `InvalidResponseError`). -/
inductive RespErr where
  | sonyError (code : Int) (message : String) : RespErr
  | invalidResponse (reason : String) : RespErr
deriving DecidableEq, Repr

/-- sony.go lines 81-103: build a `SonyError` from the decoded `error`
array, expected to hold a number (code) and a string (message); any
other shape yields an `InvalidResponseError`. -/
def NewSonyError (resp : List JVal) : RespErr :=
  match resp with
  | [a, b] =>
    match a with
    | .num code =>
      match b with
      | .str msg => .sonyError code msg
      | _ => .invalidResponse "second parameter is not a string"
    | _ => .invalidResponse "first parameter is not a number"
  | _ => .invalidResponse "wrong number of error parameters"

/-- sony.go lines 293-316: decode a response body. A parse failure is
an `InvalidResponseError`; a non-nil `error` array yields
`NewSonyError`; otherwise the `result` array (nil read as empty) is
returned. -/
def decodeResp {T : Type} (body : RawBody T) : Except RespErr (List T) :=
  match body with
  | .unparsable => .error (.invalidResponse "unmarshal")
  | .parsed b =>
    match b.error with
    | some e => .error (NewSonyError e)
    | none => .ok (b.result.getD [])

/-- The error pair a body contains, when its JSON has a well-formed
`error: [code, message]` array: the code and message. -/
def bodyErrorPair {T : Type} (body : RawBody T) : Option (Int × String) :=
  match body with
  | .unparsable => none
  | .parsed b =>
    match b.error with
    | some [JVal.num c, JVal.str m] => some (c, m)
    | _ => none

/-- sony.go lines 232-249 (the decoding tail of `post`): decode the
body; an empty result list is the no-result outcome (`nil, nil` in Go,
modelled as `none`), otherwise the first result element is returned. -/
def post {T : Type} (body : RawBody T) : Except RespErr (Option T) :=
  match decodeResp body with
  | .error e => .error e
  | .ok [] => .ok none
  | .ok (t :: _) => .ok (some t)

/-- The `result` element shape of `getPowerStatus`
(sony.go lines 158-160). -/
structure PowerStatusResponse where
  status : String
deriving DecidableEq, Repr

/-- sony.go lines 157-166: `PowerStatus` posts `getPowerStatus` and
returns the `status` field of the result. The result pointer may be
nil when the body carried no result; the returned value is then `none`
(in Go, dereferencing it would fault — no claim exercises that path). -/
def PowerStatus (body : RawBody PowerStatusResponse) : Except RespErr (Option String) :=
  match post body with
  | .error e => .error e
  | .ok r => .ok (r.map PowerStatusResponse.status)

/-! ## Startup input resolution (cmds.go lines 100-111 and 309-325)

`Inputs` (sony.go lines 194-209) builds one map holding both the
URI-to-label and label-to-URI directions; it is modelled as a lookup
function built by the same left-to-right insertion over the fetched
(uri, label) list, later insertions overriding earlier ones. -/

/-- sony.go lines 194-209: the map built by `Inputs` from the fetched
list of (uri, label) pairs, as a lookup function. For each pair, first
`uri` is mapped to `label`, then `label` to `uri`. -/
def inputsMap (inputs : List (String × String)) : String → Option String :=
  inputs.foldl
    (fun m p k =>
      if k = p.2 then some p.1
      else if k = p.1 then some p.2
      else m k)
    (fun _ => none)

/-- cmds.go lines 309-325: resolve the configured input to a URI. An
input already carrying the URI scheme is returned as is; otherwise the
input list is fetched from the TV (`fetchInputs` is that call's
outcome) and the input looked up as a label; a label the map does not
hold is an error. -/
def getInputURI (fetchInputs : Except String (List (String × String)))
    (label : String) : Except String String :=
  if label.startsWith "extInput:" then .ok label
  else
    match fetchInputs with
    | .error e => .error ("could not get available inputs: " ++ e)
    | .ok inputs =>
      match inputsMap inputs label with
      | none => .error ("tv set does not have labelled input: " ++ label)
      | some uri => .ok uri

/-- The startup outcome of `RunCmd.Run`: the URI the reconciler was
fixed to (if resolution succeeded), whether the watch loop was entered,
and the startup error (if any). -/
structure RunOutcome where
  resolvedURI : Option String
  watchEntered : Bool
  startupErr : Option String
deriving DecidableEq, Repr

/-- cmds.go lines 100-111: the startup of the `run` command. The input
URI is resolved once by `getInputURI`; on failure the command returns
the wrapped error without entering `Screen.Watch`; on success the
watch loop is entered with the reconciler closed over the resolved
URI. -/
def runCmdStartup (fetchInputs : Except String (List (String × String)))
    (input : String) : RunOutcome :=
  match getInputURI fetchInputs input with
  | .error e =>
    ⟨none, false, some ("could not get input URI for " ++ input ++ ": " ++ e)⟩
  | .ok uri => ⟨some uri, true, none⟩

/-! ## Concrete clients used to instantiate the abstract TV client -/

/-- A TV that reports standby, answers a fixed foreign input, and
accepts every mutation. -/
def standbyClient : TVClient Unit String where
  powerStatus _ := (.ok "standby", ())
  setPowerStatus _ _ := (.ok (), ())
  selectedInput _ := (.ok "extInput:hdmi1", ())
  setInput _ _ := (.ok (), ())

/-- A TV that reports active and answers a fixed foreign input. -/
def activeForeignClient : TVClient Unit String where
  powerStatus _ := (.ok "active", ())
  setPowerStatus _ _ := (.ok (), ())
  selectedInput _ := (.ok "extInput:hdmi1", ())
  setInput _ _ := (.ok (), ())

/-! ## Trace-length bounds for ssChange -/

/-- The tail of the reconciler adds at most two calls (`SelectedInput`
and at most one mutation) to the trace. -/
theorem ssChangeTail_length_le {σ ε : Type} (c : TVClient σ ε) (ourInput : String)
    (ssOn : Bool) (status : String) (s : σ) (tr : List Call) :
    (ssChangeTail c ourInput ssOn status s tr).2.2.length ≤ tr.length + 2 := by
  unfold ssChangeTail
  rcases h : c.selectedInput s with ⟨r, s1⟩
  cases r with
  | error e => simp
  | ok input =>
    dsimp only
    split
    · rcases h2 : c.setInput ourInput s1 with ⟨r2, s2⟩
      cases r2 <;> simp
    · split
      · rcases h2 : c.setPowerStatus false s1 with ⟨r2, s2⟩
        cases r2 <;> simp
      · simp

/-- C1 (counterexample): with the TV in standby, the screen saver
turning off and a foreign input selected, the reconciler makes four
protocol calls (PowerStatus, SetPowerStatus true, SelectedInput,
SetInput), exceeding the claimed bound of three. -/
theorem ssChange_four_calls :
    3 < ((ssChange standbyClient "extInput:hdmi2" false ()).2.2).length := by
  decide

/-- C1 (amended): for every invocation of the reconciler `ssChange`,
over any client state and any sequence of TV responses, at most four
protocol calls are made before returning. -/
theorem ssChange_length_le_four {σ ε : Type} (c : TVClient σ ε) (ourInput : String)
    (ssOn : Bool) (s : σ) :
    (ssChange c ourInput ssOn s).2.2.length ≤ 4 := by
  unfold ssChange
  rcases h : c.powerStatus s with ⟨r, s1⟩
  cases r with
  | error e => simp
  | ok status =>
    dsimp only
    split
    · simp
    · split
      · rcases h2 : c.setPowerStatus true s1 with ⟨r2, s2⟩
        cases r2 with
        | error e => simp
        | ok u =>
          dsimp only
          calc (ssChangeTail c ourInput ssOn status s2
                  [Call.powerStatus, Call.setPowerStatus true]).2.2.length
              ≤ [Call.powerStatus, Call.setPowerStatus true].length + 2 :=
                ssChangeTail_length_le ..
            _ ≤ 4 := by simp
      · calc (ssChangeTail c ourInput ssOn status s1 [Call.powerStatus]).2.2.length
            ≤ [Call.powerStatus].length + 2 := ssChangeTail_length_le ..
          _ ≤ 4 := by simp

/-- C2: when the TV reports power active, the screen saver is on and
the fetched selected input differs from the target input URI, the
reconciler performs exactly PowerStatus then SelectedInput, with no
mutating call, and returns success. -/
theorem ssChange_foreign_input_untouched {σ ε : Type} (c : TVClient σ ε)
    (ourInput : String) (s s1 s2 : σ) (input : String)
    (hp : c.powerStatus s = (.ok "active", s1))
    (hi : c.selectedInput s1 = (.ok input, s2))
    (hne : input ≠ ourInput) :
    ssChange c ourInput true s = (.ok (), s2, [Call.powerStatus, Call.selectedInput]) ∧
    ((ssChange c ourInput true s).2.2.any Call.isMutating) = false := by
  have h1 : ssChange c ourInput true s =
      (.ok (), s2, [Call.powerStatus, Call.selectedInput]) := by
    unfold ssChange
    rw [hp]
    dsimp only
    rw [if_neg (by simp), if_neg (by simp)]
    unfold ssChangeTail
    rw [hi]
    dsimp only
    rw [if_neg (by simp), if_neg (by simp [hne])]
    rfl
  exact ⟨h1, by rw [h1]; rfl⟩

/-- C2 (witness): a TV answering active power and a foreign fixed
input is left untouched, with exactly the two read-only calls made. -/
theorem ssChange_foreign_input_untouched_witness :
    ssChange activeForeignClient "extInput:hdmi2" true () =
      (.ok (), (), [Call.powerStatus, Call.selectedInput]) :=
  (ssChange_foreign_input_untouched activeForeignClient "extInput:hdmi2" () () ()
    "extInput:hdmi1" rfl rfl (by decide)).1

/-- C3: invoking the reconciler twice with the same screen saver value,
the TV state between the calls changed only by the first invocation's
own mutations, makes the second invocation perform no mutating call. -/
theorem ssChange_idempotent (tv : TVState) (ourInput : String) (ssOn : Bool)
    (h : tv.power = "active" ∨ tv.power = "standby") :
    ((ssChange tvClient ourInput ssOn
        (ssChange tvClient ourInput ssOn tv).2.1).2.2.any Call.isMutating) = false := by
  obtain ⟨pw, inp⟩ := tv
  rcases h with h | h <;> simp only at h <;> subst h <;> cases ssOn <;>
    by_cases hio : inp = ourInput <;>
      simp [ssChange, ssChangeTail, tvClient, hio, Call.isMutating]

/-- C3 (witness): starting from an active TV showing our input with the
screen saver on, the second invocation performs no mutating call. -/
theorem ssChange_idempotent_witness :
    ((ssChange tvClient "u" true
        (ssChange tvClient "u" true ⟨"active", "u"⟩).2.1).2.2.any Call.isMutating) = false :=
  ssChange_idempotent ⟨"active", "u"⟩ "u" true (Or.inl rfl)

/-- C4: on a screen saver notification the cached flag is set to the
decoded value unconditionally (presence untouched, no error), and the
handler is invoked with the new value exactly when the decoded value
differs from the previously cached one and presence is true. -/
theorem watchStep_saverNotify (m : String) (p : Nat) (st : ScreenState)
    (k : SaverState) :
    ∃ st1 inv, watchStep m p st (.saverNotify k) = .ok (st1, inv) ∧
      st1.ssOn = notifyIsOn k ∧ st1.present = st.present ∧
      ∀ b : Bool, inv = some b ↔
        (b = notifyIsOn k ∧ notifyIsOn k ≠ st.ssOn ∧ st.present = true) := by
  obtain ⟨sson, pres⟩ := st
  cases k <;> cases sson <;> cases pres <;>
    exact ⟨_, _, rfl, by decide⟩

/-- C4 (witness): with the cache off and the monitor present, a Cycle
notification stores on and invokes the handler with the new value. -/
theorem watchStep_saverNotify_witness :
    watchStep "SNY" 63747 ⟨false, true⟩ (.saverNotify SaverState.cycle) =
      .ok (⟨true, true⟩, some true) := by
  obtain ⟨st1, inv, heq, hsson, hpres, hiff⟩ :=
    watchStep_saverNotify "SNY" 63747 ⟨false, true⟩ SaverState.cycle
  have hinv : inv = some true := (hiff true).mpr ⟨rfl, by decide, rfl⟩
  have hst : st1 = ⟨true, true⟩ := by
    obtain ⟨a, b⟩ := st1
    simp only at hsson hpres
    subst hsson
    subst hpres
    rfl
  rw [hst, hinv] at heq
  exact heq

/-- C5: on a topology-change notification, presence is recomputed by a
full rescan of the outputs and cached; the handler is invoked exactly
when presence goes from false to true, and it is passed the screen
saver value cached at that moment. -/
theorem watchStep_randrNotify (m : String) (p : Nat) (st : ScreenState)
    (outputs : List EDIDProp) (pr : Bool)
    (h : queryPresence m p outputs = .ok pr) :
    ∃ inv, watchStep m p st (.randrNotify outputs) = .ok (⟨st.ssOn, pr⟩, inv) ∧
      ∀ b : Bool, inv = some b ↔
        (b = st.ssOn ∧ pr = true ∧ st.present = false) := by
  obtain ⟨sson, pres⟩ := st
  simp only [watchStep, h]
  cases pr <;> cases pres <;> cases sson <;> exact ⟨_, rfl, by decide⟩

/-- C5 (witness): with presence previously false and a matching output
appearing, the rescan stores presence true and the handler is invoked
once with the cached screen saver value. -/
theorem watchStep_randrNotify_witness :
    watchStep "SNY" 63747 ⟨true, false⟩
        (.randrNotify [EDIDProp.payload "SNY" 63747]) =
      .ok (⟨true, true⟩, some true) := by
  obtain ⟨inv, heq, hiff⟩ :=
    watchStep_randrNotify "SNY" 63747 ⟨true, false⟩
      [EDIDProp.payload "SNY" 63747] true rfl
  have hinv : inv = some true := (hiff true).mpr ⟨rfl, rfl, rfl⟩
  rw [hinv] at heq
  exact heq

/-! ## Lemmas about presence detection -/

/-- A block of well-formed, non-matching outputs at the front of the
enumeration is passed over without changing the outcome. -/
theorem queryPresence_skip (m : String) (p : Nat) (front rest : List EDIDProp)
    (h : ∀ o ∈ front, o.wellFormed = true ∧ EDIDProp.matches m p o = false) :
    queryPresence m p (front ++ rest) = queryPresence m p rest := by
  induction front with
  | nil => rfl
  | cons o front ih =>
    obtain ⟨hwf, hnm⟩ := h o (List.mem_cons_self o front)
    have h' := fun o ho => h o (List.mem_cons_of_mem _ ho)
    cases o with
    | tooLarge => simp [EDIDProp.wellFormed] at hwf
    | malformed => simp [EDIDProp.wellFormed] at hwf
    | absent => simpa [queryPresence, RangeEDID] using ih h'
    | payload mo po =>
      simp only [EDIDProp.matches] at hnm
      simpa [queryPresence, RangeEDID, presenceFn, hnm] using ih h'

/-- A matching output at the head of the enumeration yields present
immediately, whatever follows. -/
theorem queryPresence_match_head (m : String) (p : Nat) (rest : List EDIDProp) :
    queryPresence m p (EDIDProp.payload m p :: rest) = .ok true := by
  simp [queryPresence, RangeEDID, presenceFn]

/-- Over well-formed outputs, presence is the existence of a matching
output. -/
theorem queryPresence_wellFormed (m : String) (p : Nat) (outputs : List EDIDProp)
    (h : ∀ o ∈ outputs, o.wellFormed = true) :
    queryPresence m p outputs = .ok (outputs.any (EDIDProp.matches m p)) := by
  induction outputs with
  | nil => rfl
  | cons o rest ih =>
    have hwf := h o (List.mem_cons_self o rest)
    have h' := fun o ho => h o (List.mem_cons_of_mem _ ho)
    cases o with
    | tooLarge => simp [EDIDProp.wellFormed] at hwf
    | malformed => simp [EDIDProp.wellFormed] at hwf
    | absent => simpa [queryPresence, RangeEDID, EDIDProp.matches] using ih h'
    | payload mo po =>
      by_cases hm : (mo == m && po == p) = true
      · simp [queryPresence, RangeEDID, presenceFn, hm, EDIDProp.matches]
      · simp only [Bool.not_eq_true] at hm
        simpa [queryPresence, RangeEDID, presenceFn, hm, EDIDProp.matches] using ih h'

/-- C6: over any finite, well-formed set of outputs, in any enumeration
order, presence is true exactly when some output matches the configured
(manufacturerID, productCode) pair; the result is invariant under
permutation of the outputs; a match short-circuits the enumeration (the
outputs after the first match, even malformed ones, are never
inspected); and an exhausted set with no match yields present false. -/
theorem queryPresence_spec :
    (∀ (m : String) (p : Nat) (outputs : List EDIDProp),
      (∀ o ∈ outputs, o.wellFormed = true) →
        queryPresence m p outputs = .ok (outputs.any (EDIDProp.matches m p))) ∧
    (∀ (m : String) (p : Nat) (outputs outputs' : List EDIDProp),
      outputs.Perm outputs' → (∀ o ∈ outputs, o.wellFormed = true) →
        queryPresence m p outputs = queryPresence m p outputs') ∧
    (∀ (m : String) (p : Nat) (front rest : List EDIDProp),
      (∀ o ∈ front, o.wellFormed = true ∧ EDIDProp.matches m p o = false) →
        queryPresence m p (front ++ EDIDProp.payload m p :: rest) = .ok true) := by
  refine ⟨queryPresence_wellFormed, ?_, ?_⟩
  · intro m p outputs outputs' hperm hwf
    have hwf' : ∀ o ∈ outputs', o.wellFormed = true :=
      fun o ho => hwf o (hperm.mem_iff.mpr ho)
    rw [queryPresence_wellFormed m p outputs hwf,
      queryPresence_wellFormed m p outputs' hwf']
    have : outputs.any (EDIDProp.matches m p) = outputs'.any (EDIDProp.matches m p) := by
      cases ha : outputs.any (EDIDProp.matches m p) <;>
        cases hb : outputs'.any (EDIDProp.matches m p) <;> try rfl
      · rw [List.any_eq_false] at ha
        rw [List.any_eq_true] at hb
        obtain ⟨x, hx, hfx⟩ := hb
        exact absurd hfx (by simpa using ha x (hperm.mem_iff.mpr hx))
      · rw [List.any_eq_false] at hb
        rw [List.any_eq_true] at ha
        obtain ⟨x, hx, hfx⟩ := ha
        exact absurd hfx (by simpa using hb x (hperm.mem_iff.mp hx))
    rw [this]
  · intro m p front rest h
    rw [queryPresence_skip m p front _ h, queryPresence_match_head]

/-- C6 (witness): among a non-matching and a matching output the
configured monitor is detected, and the trailing malformed output is
cut off by the short-circuit. -/
theorem queryPresence_spec_witness :
    queryPresence "SNY" 63747
      [EDIDProp.absent, EDIDProp.payload "SNY" 63747, EDIDProp.malformed] = .ok true :=
  queryPresence_spec.2.2 "SNY" 63747 [EDIDProp.absent] [EDIDProp.malformed] (by decide)

/-- C7: an output with no EDID property is skipped without error, while
a reached output whose non-empty property fails to decode makes the
whole presence query return the decode failure instead of skipping. -/
theorem queryPresence_malformed_spec :
    (∀ (m : String) (p : Nat) (rest : List EDIDProp),
      queryPresence m p (EDIDProp.absent :: rest) = queryPresence m p rest) ∧
    (∀ (m : String) (p : Nat) (front rest : List EDIDProp),
      (∀ o ∈ front, o.wellFormed = true ∧ EDIDProp.matches m p o = false) →
        queryPresence m p (front ++ EDIDProp.malformed :: rest) =
          .error "could not parse EDID data") := by
  constructor
  · intro m p rest
    rfl
  · intro m p front rest h
    rw [queryPresence_skip m p front _ h]
    rfl

/-- C7 (witness): a malformed EDID block after a skipped absent output
is reported as a parse error, not skipped. -/
theorem queryPresence_malformed_spec_witness :
    queryPresence "SNY" 63747 [EDIDProp.absent, EDIDProp.malformed] =
      .error "could not parse EDID data" :=
  queryPresence_malformed_spec.2 "SNY" 63747 [EDIDProp.absent] [] (by decide)

/-- C8: a protocol call yields a protocol (Sony) error carrying code
and message exactly when the body's JSON holds a well-formed error
pair; the crafted error body with code 40005 yields that protocol
error; a body with a result makes `PowerStatus` return "standby" with
no error; and a well-formed body with neither result nor error is the
successful no-result outcome of `post`, not an error. -/
theorem decodeResp_spec :
    (∀ (T : Type) (body : RawBody T) (code : Int) (msg : String),
      decodeResp body = .error (.sonyError code msg) ↔
        bodyErrorPair body = some (code, msg)) ∧
    (decodeResp (T := PowerStatusResponse)
      (.parsed ⟨none, some [JVal.num 40005, JVal.str "Display Is Turned Off"]⟩) =
        .error (.sonyError 40005 "Display Is Turned Off")) ∧
    (PowerStatus (.parsed ⟨some [⟨"standby"⟩], none⟩) = .ok (some "standby")) ∧
    (∀ (T : Type) (b : BraviaResponse T), b.error = none → b.result = none →
      post (.parsed b) = .ok none) := by
  refine ⟨?_, rfl, rfl, ?_⟩
  · intro T body code msg
    cases body with
    | unparsable => simp [decodeResp, bodyErrorPair]
    | parsed b =>
      obtain ⟨res, errf⟩ := b
      cases errf with
      | none => simp [decodeResp, bodyErrorPair]
      | some e =>
        rcases e with _ | ⟨a, _ | ⟨b2, _ | ⟨c, rest⟩⟩⟩
        · simp [decodeResp, bodyErrorPair, NewSonyError]
        · cases a <;> simp [decodeResp, bodyErrorPair, NewSonyError]
        · cases a <;> cases b2 <;>
            simp [decodeResp, bodyErrorPair, NewSonyError, and_comm]
        · cases a <;> cases b2 <;> simp [decodeResp, bodyErrorPair, NewSonyError]
  · intro T b h1 h2
    obtain ⟨res, errf⟩ := b
    simp only at h1 h2
    subst h1
    subst h2
    rfl

/-- C8 (witness): a parsed body with neither result nor error decodes
to the successful no-result outcome. -/
theorem decodeResp_spec_witness :
    post (T := PowerStatusResponse) (.parsed ⟨none, none⟩) = .ok none :=
  decodeResp_spec.2.2.2 PowerStatusResponse ⟨none, none⟩ rfl rfl

/-- C9: at startup of the run command the target input URI is resolved
once by `getInputURI`: an input already in URI form resolves to itself,
an input found as a label in the fetched input map resolves to its URI,
an input resolving as neither yields a startup error without entering
the watch loop, and a successful resolution enters the watch loop with
the reconciler fixed to the resolved URI. -/
theorem runCmd_resolution_spec :
    (∀ (fetch : Except String (List (String × String))) (input : String),
      input.startsWith "extInput:" = true → getInputURI fetch input = .ok input) ∧
    (∀ (inputs : List (String × String)) (input uri : String),
      input.startsWith "extInput:" = false → inputsMap inputs input = some uri →
        getInputURI (.ok inputs) input = .ok uri) ∧
    (∀ (inputs : List (String × String)) (input : String),
      input.startsWith "extInput:" = false → inputsMap inputs input = none →
        runCmdStartup (.ok inputs) input =
          ⟨none, false, some ("could not get input URI for " ++ input ++ ": " ++
            ("tv set does not have labelled input: " ++ input))⟩) ∧
    (∀ (fetch : Except String (List (String × String))) (input uri : String),
      getInputURI fetch input = .ok uri →
        runCmdStartup fetch input = ⟨some uri, true, none⟩) := by
  refine ⟨?_, ?_, ?_, ?_⟩
  · intro fetch input h
    unfold getInputURI
    rw [h, if_pos rfl]
  · intro inputs input uri h1 h2
    unfold getInputURI
    rw [h1]
    simp only [Bool.false_eq_true, if_false, h2]
  · intro inputs input h1 h2
    unfold runCmdStartup getInputURI
    rw [h1]
    simp only [Bool.false_eq_true, if_false, h2]
  · intro fetch input uri h
    unfold runCmdStartup
    rw [h]

/-- C9 (witness): a configured input that is neither in URI form nor a
known label produces the startup error and the watch loop is not
entered. -/
theorem runCmd_resolution_spec_witness :
    runCmdStartup (.ok []) "HDMI1" =
      ⟨none, false, some ("could not get input URI for " ++ "HDMI1" ++ ": " ++
        ("tv set does not have labelled input: " ++ "HDMI1"))⟩ :=
  runCmd_resolution_spec.2.2.1 [] "HDMI1" (by decide) rfl

/-- C10: the watch loop records a screen saver notification as on
exactly when its state is On or Cycle (and stores that value in the
cache), while the value queried at construction is on exactly when the
state is On — so state Cycle is off at construction but on as a
notification. -/
theorem saverDecode_spec :
    (∀ k, notifyIsOn k = true ↔ (k = SaverState.on ∨ k = SaverState.cycle)) ∧
    (∀ k, queryScreenSaver k = true ↔ k = SaverState.on) ∧
    (∀ (m : String) (p : Nat) (st : ScreenState) (k : SaverState),
      ∃ inv, watchStep m p st (.saverNotify k) = .ok (⟨notifyIsOn k, st.present⟩, inv)) ∧
    notifyIsOn SaverState.cycle = true ∧
    queryScreenSaver SaverState.cycle = false := by
  refine ⟨?_, ?_, ?_, rfl, rfl⟩
  · intro k
    cases k <;> decide
  · intro k
    cases k <;> decide
  · intro m p st k
    obtain ⟨sson, pres⟩ := st
    cases k <;> cases sson <;> cases pres <;> exact ⟨_, rfl⟩

end Offscreen
